import Mathlib

/-!
Verification of the webgl-canvas helper script (go.py).

The script parses two boolean flags.  When test_render is set it reads
the files webgl-canvas.js and test.template.html, replaces every
occurrence of the two-character placeholder (open brace followed by
close brace) in the template by the script fragment, and writes the
result to test.html.  When test_browser is set it asks the platform to
open test.html in a browser.  An unhandled I/O error terminates the
process with a non-zero exit status.

The embedding models the filesystem as a partial map from file names to
text contents, and an invocation as a function from parsed flags and an
initial filesystem to a final state carrying the final filesystem, the
ordered trace of observable effects, and whether the process aborted.
-/

/-- Observable effect of one step of the script: a file read, a file
write with the written content, or a request to open a path in the
default browser. -/
inductive Event where
  | readFile : String → Event
  | writeFile : String → String → Event
  | openBrowser : String → Event
deriving DecidableEq

/-- Parsed command-line flags, as produced by the argparse setup in
go.py lines 4-7. -/
structure Args where
  test_render : Bool
  test_browser : Bool
deriving DecidableEq

/-- Filesystem model: a file name maps to its text content, or to none
when the file is absent (opening it raises and the process aborts). -/
def FS : Type := String → Option String

/-- Writing a file: truncate or create, leaving every other file
untouched. -/
def FS.update (fs : FS) (name content : String) : FS :=
  fun n => if n = name then some content else fs n

/-- Name of the script-fragment input file read at go.py line 10. -/
def jsFile : String := "webgl-canvas.js"

/-- Name of the template input file read at go.py line 11. -/
def templateFile : String := "test.template.html"

/-- Name of the output file written at go.py line 12 and opened at
line 15. -/
def outFile : String := "test.html"

/-- Python string replace specialised to the two-character needle of
go.py line 12, on character lists: scan left to right, and at each
position either consume a placeholder occurrence and emit the fragment,
or emit the current character unchanged. -/
def replaceLC (fragment : List Char) : List Char → List Char
  | [] => []
  | [c] => [c]
  | c :: d :: rest =>
    if c = '\x7b' ∧ d = '\x7d' then fragment ++ replaceLC fragment rest
    else c :: replaceLC fragment (d :: rest)

/-- The expression contents.replace on go.py line 12, lifted to
strings. -/
def pyReplace (template fragment : String) : String :=
  ⟨replaceLC fragment.data template.data⟩

/-- Helper for splitOnPH: extend the first segment of a split by one
character. -/
def consHead (c : Char) : List (List Char) → List (List Char)
  | [] => [[c]]
  | p :: ps => (c :: p) :: ps

/-- Modelled from the spec wording of the render step: the segments of
the template lying between consecutive placeholder occurrences, in
order, scanning left to right.  Joining these segments with the
fragment as separator is the output the spec describes: every
occurrence replaced, all bytes outside the occurrences unchanged. -/
def splitOnPH : List Char → List (List Char)
  | [] => [[]]
  | [c] => [[c]]
  | c :: d :: rest =>
    if c = '\x7b' ∧ d = '\x7d' then [] :: splitOnPH rest
    else consHead c (splitOnPH (d :: rest))

/-- Joining a list of segments with a separator between consecutive
segments. -/
def joinWith (sep : List Char) : List (List Char) → List Char
  | [] => []
  | [p] => p
  | p :: ps => p ++ (sep ++ joinWith sep ps)

/-- Whether a character list contains at least one occurrence of the
placeholder. -/
def containsPH : List Char → Bool
  | [] => false
  | [_] => false
  | c :: d :: rest =>
    if c = '\x7b' ∧ d = '\x7d' then true else containsPH (d :: rest)

/-- State of one invocation: current filesystem, trace of effects so
far, and whether an unhandled exception has terminated the script. -/
structure PState where
  fs : FS
  events : List Event
  aborted : Bool

/-- State at process start: the ambient filesystem, no effects yet, not
aborted. -/
def initState (fs : FS) : PState :=
  ⟨fs, [], false⟩

/-- The render step, go.py lines 9-12: read the fragment, read the
template, then write the substituted text to the output file.  A
missing input raises, recording the attempted read and aborting before
the output file is ever opened for writing. -/
def renderStep (st : PState) : PState :=
  if st.aborted then st else
  match st.fs jsFile with
  | none =>
    { st with events := st.events ++ [Event.readFile jsFile], aborted := true }
  | some webgl_canvas =>
    match st.fs templateFile with
    | none =>
      { st with
        events := st.events ++ [Event.readFile jsFile, Event.readFile templateFile],
        aborted := true }
    | some contents =>
      { fs := st.fs.update outFile (pyReplace contents webgl_canvas),
        events := st.events ++
          [Event.readFile jsFile, Event.readFile templateFile,
           Event.writeFile outFile (pyReplace contents webgl_canvas)],
        aborted := false }

/-- The browser step, go.py lines 14-15: ask the platform to open the
output file.  It only runs when the script is still alive; it touches
no file. -/
def browserStep (st : PState) : PState :=
  if st.aborted then st else
  { st with events := st.events ++ [Event.openBrowser outFile] }

/-- One invocation of go.py: the render step when test_render is set,
then the browser step when test_browser is set, sequentially. -/
def run (args : Args) (fs : FS) : PState :=
  let st0 := initState fs
  let st1 := if args.test_render then renderStep st0 else st0
  if args.test_browser then browserStep st1 else st1

/-- Process exit status: zero on success, non-zero when an unhandled
exception aborted the script. -/
def exitCode (st : PState) : Nat :=
  if st.aborted then 1 else 0

/-- Whether an event is a file write. -/
def isWrite : Event → Bool
  | Event.writeFile _ _ => true
  | _ => false

/-- The file writes performed by an invocation, in order. -/
def writesOf (st : PState) : List Event :=
  st.events.filter isWrite

/-- The split of a template never produces an empty segment list. -/
theorem splitOnPH_ne_nil (t : List Char) : splitOnPH t ≠ [] := by
  induction t using splitOnPH.induct with
  | case1 => simp [splitOnPH]
  | case2 c => simp [splitOnPH]
  | case3 c d rest h ih => simp [splitOnPH, h]
  | case4 c d rest h ih =>
    simp only [splitOnPH, if_neg h]
    cases hs : splitOnPH (d :: rest) with
    | nil => exact absurd hs ih
    | cons p ps => simp [consHead]

/-- Joining after extending the first segment by a character prepends
that character to the join. -/
theorem joinWith_consHead (f : List Char) (c : Char) (l : List (List Char)) :
    joinWith f (consHead c l) = c :: joinWith f l := by
  cases l with
  | nil => rfl
  | cons p ps =>
    cases ps with
    | nil => rfl
    | cons q qs => rfl

/-- Joining with an empty first segment emits the separator first, as
long as more segments follow. -/
theorem joinWith_nil_cons (f : List Char) (l : List (List Char)) (h : l ≠ []) :
    joinWith f ([] :: l) = f ++ joinWith f l := by
  cases l with
  | nil => exact absurd rfl h
  | cons p ps => rfl

/-- Refinement of the render substitution: the code expression, a
left-to-right replace, equals the spec description, the template split
at each placeholder occurrence and rejoined with the fragment as
separator. -/
theorem replaceLC_eq_joinWith_splitOnPH (f t : List Char) :
    replaceLC f t = joinWith f (splitOnPH t) := by
  induction t using replaceLC.induct f with
  | case1 => rfl
  | case2 c => rfl
  | case3 c d rest h ih =>
    rw [replaceLC, if_pos h, splitOnPH, if_pos h,
      joinWith_nil_cons f _ (splitOnPH_ne_nil rest), ih]
  | case4 c d rest h ih =>
    rw [replaceLC, if_neg h, splitOnPH, if_neg h, joinWith_consHead, ih]

/-- Replacing in a template with no placeholder occurrence returns the
template unchanged. -/
theorem replaceLC_of_not_containsPH (f t : List Char) (h : containsPH t = false) :
    replaceLC f t = t := by
  induction t using replaceLC.induct f with
  | case1 => rfl
  | case2 c => rfl
  | case3 c d rest hc ih =>
    rw [containsPH, if_pos hc] at h
    exact absurd h (by simp)
  | case4 c d rest hc ih =>
    rw [containsPH, if_neg hc] at h
    rw [replaceLC, if_neg hc, ih h]

/-- Reading the output file back after the update gives the written
content. -/
theorem FS.update_same (fs : FS) (name content : String) :
    FS.update fs name content name = some content := by
  simp [FS.update]

/-- An invocation with both flags clear leaves the initial state as it
was. -/
theorem run_neither (args : Args) (fs : FS)
    (htr : args.test_render = false) (hb : args.test_browser = false) :
    run args fs = ⟨fs, [], false⟩ := by
  simp [run, initState, htr, hb]

/-- An invocation with only the browser flag set performs exactly the
browser-open effect. -/
theorem run_browser_only (args : Args) (fs : FS)
    (htr : args.test_render = false) (hb : args.test_browser = true) :
    run args fs = ⟨fs, [Event.openBrowser outFile], false⟩ := by
  simp [run, initState, browserStep, htr, hb]

/-- When the render flag is set and the script fragment file is absent,
the run aborts after the failed read, whatever the browser flag says. -/
theorem run_fail_js (args : Args) (fs : FS)
    (htr : args.test_render = true) (hw : fs jsFile = none) :
    run args fs = ⟨fs, [Event.readFile jsFile], true⟩ := by
  cases hb : args.test_browser <;>
    simp [run, initState, renderStep, browserStep, htr, hb, hw]

/-- When the render flag is set, the fragment file is present but the
template file is absent, the run aborts after the two reads, whatever
the browser flag says. -/
theorem run_fail_template (args : Args) (fs : FS) (w : String)
    (htr : args.test_render = true) (hw : fs jsFile = some w)
    (ht : fs templateFile = none) :
    run args fs = ⟨fs, [Event.readFile jsFile, Event.readFile templateFile], true⟩ := by
  cases hb : args.test_browser <;>
    simp [run, initState, renderStep, browserStep, htr, hb, hw, ht]

/-- Successful render with the browser flag clear: two reads then the
write, and the filesystem gains the rendered output file. -/
theorem run_render_success (args : Args) (fs : FS) (w t : String)
    (htr : args.test_render = true) (hb : args.test_browser = false)
    (hw : fs jsFile = some w) (ht : fs templateFile = some t) :
    run args fs =
      ⟨FS.update fs outFile (pyReplace t w),
       [Event.readFile jsFile, Event.readFile templateFile,
        Event.writeFile outFile (pyReplace t w)],
       false⟩ := by
  simp [run, initState, renderStep, browserStep, htr, hb, hw, ht]

/-- Successful render with the browser flag set: two reads, the write,
then the browser-open effect, in that order. -/
theorem run_render_success_browser (args : Args) (fs : FS) (w t : String)
    (htr : args.test_render = true) (hb : args.test_browser = true)
    (hw : fs jsFile = some w) (ht : fs templateFile = some t) :
    run args fs =
      ⟨FS.update fs outFile (pyReplace t w),
       [Event.readFile jsFile, Event.readFile templateFile,
        Event.writeFile outFile (pyReplace t w), Event.openBrowser outFile],
       false⟩ := by
  simp [run, initState, renderStep, browserStep, htr, hb, hw, ht]

/-- The rendered output file content, for any flag combination, once
both reads succeed. -/
theorem run_fs_outFile (args : Args) (fs : FS) (w t : String)
    (htr : args.test_render = true) (hw : fs jsFile = some w)
    (ht : fs templateFile = some t) :
    (run args fs).fs outFile = some (pyReplace t w) := by
  cases hb : args.test_browser
  · rw [run_render_success args fs w t htr hb hw ht]
    exact FS.update_same fs outFile _
  · rw [run_render_success_browser args fs w t htr hb hw ht]
    exact FS.update_same fs outFile _

/-- The empty filesystem: every file is absent. -/
def fsEmpty : FS := fun _ => none

/-- Concrete fragment used in the examples. -/
def fragExample : String := "X"

/-- Concrete template with two placeholder occurrences. -/
def tmplExample : String := "A\x7b\x7dB\x7b\x7dC"

/-- Expected render of tmplExample with fragExample. -/
def outExample : String := "AXBXC"

/-- Filesystem holding the two input files with the example contents. -/
def fsExample : FS := fun n =>
  if n = jsFile then some fragExample
  else if n = templateFile then some tmplExample
  else none

/-- Stale prior content of the output file, for the re-render
examples. -/
def staleExample : String := "stale"

/-- fsExample with a stale pre-existing output file. -/
def fsStale : FS := fun n =>
  if n = outFile then some staleExample else fsExample n

/-- Concrete template with no placeholder occurrence. -/
def plainExample : String := "plain text"

/-- Filesystem whose template has no placeholder occurrence. -/
def fsPlain : FS := fun n =>
  if n = jsFile then some fragExample
  else if n = templateFile then some plainExample
  else none

/-- C1: when the render flag is set and both inputs are readable, the
run writes to test.html exactly the template with every occurrence of
the placeholder replaced by the fragment: the written text equals the
template split at its placeholder occurrences and rejoined with the
fragment as separator, so every byte outside the replaced occurrences
is unchanged. -/
theorem c1_render_replaces_every_placeholder (args : Args) (fs : FS) (w t : String)
    (htr : args.test_render = true) (hw : fs jsFile = some w)
    (ht : fs templateFile = some t) :
    (run args fs).fs outFile = some (pyReplace t w) ∧
    (pyReplace t w).data = joinWith w.data (splitOnPH t.data) :=
  ⟨run_fs_outFile args fs w t htr hw ht,
   replaceLC_eq_joinWith_splitOnPH w.data t.data⟩

/-- C1 witness: concrete run on the two-occurrence template, including
the spec example output AXBXC. -/
theorem c1_witness :
    ((⟨true, false⟩ : Args).test_render = true ∧
     fsExample jsFile = some fragExample ∧
     fsExample templateFile = some tmplExample) ∧
    ((run ⟨true, false⟩ fsExample).fs outFile = some (pyReplace tmplExample fragExample) ∧
     (pyReplace tmplExample fragExample).data =
       joinWith fragExample.data (splitOnPH tmplExample.data)) ∧
    pyReplace tmplExample fragExample = outExample :=
  ⟨⟨rfl, by decide, by decide⟩,
   c1_render_replaces_every_placeholder ⟨true, false⟩ fsExample fragExample tmplExample
     rfl (by decide) (by decide),
   by decide⟩

/-- C2: when the render flag is set and an input file is missing, the
process exits non-zero, the filesystem is unchanged, and no write event
ever happens: the output file is only opened for writing after both
reads succeed. -/
theorem c2_missing_input_aborts_without_write (args : Args) (fs : FS)
    (htr : args.test_render = true)
    (h : fs jsFile = none ∨ fs templateFile = none) :
    exitCode (run args fs) ≠ 0 ∧ (run args fs).fs = fs ∧
    ∀ name content, Event.writeFile name content ∉ (run args fs).events := by
  have key : run args fs = ⟨fs, [Event.readFile jsFile], true⟩ ∨
      run args fs = ⟨fs, [Event.readFile jsFile, Event.readFile templateFile], true⟩ := by
    rcases h with h | h
    · exact Or.inl (run_fail_js args fs htr h)
    · cases hw : fs jsFile with
      | none => exact Or.inl (run_fail_js args fs htr hw)
      | some w => exact Or.inr (run_fail_template args fs w htr hw h)
  rcases key with key | key <;> rw [key] <;>
    exact ⟨by simp [exitCode], rfl, by intro name content; simp⟩

/-- C2 witness: concrete aborting run on the empty filesystem. -/
theorem c2_witness :
    ((⟨true, false⟩ : Args).test_render = true ∧ fsEmpty jsFile = none) ∧
    exitCode (run ⟨true, false⟩ fsEmpty) ≠ 0 ∧
    (run ⟨true, false⟩ fsEmpty).fs = fsEmpty ∧
    ∀ name content, Event.writeFile name content ∉ (run ⟨true, false⟩ fsEmpty).events :=
  ⟨⟨rfl, rfl⟩,
   c2_missing_input_aborts_without_write ⟨true, false⟩ fsEmpty rfl (Or.inl rfl)⟩

/-- C3 counterexample: with both flags set and the fragment file
absent, the run aborts inside the render step and the browser-open
effect never happens, so the browser step does not run regardless of
render failure. -/
theorem c3_counterexample_no_browser_after_failure :
    Event.openBrowser outFile ∉ (run ⟨true, true⟩ fsEmpty).events := by
  rw [run_fail_js ⟨true, true⟩ fsEmpty rfl rfl]
  simp

/-- C3 (amended): when the browser flag is set, the browser-open step
runs iff the render step was not requested or both of its input reads
succeed; when both flags are set and the render step fails, the
unhandled exception terminates the script before the browser step. -/
theorem c3_browser_open_iff_render_ok (args : Args) (fs : FS)
    (hb : args.test_browser = true) :
    Event.openBrowser outFile ∈ (run args fs).events ↔
      (args.test_render = false ∨
       ((fs jsFile).isSome ∧ (fs templateFile).isSome)) := by
  cases htr : args.test_render
  · rw [run_browser_only args fs htr hb]
    simp
  · cases hw : fs jsFile with
    | none =>
      rw [run_fail_js args fs htr hw]
      simp [hw]
    | some w =>
      cases ht : fs templateFile with
      | none =>
        rw [run_fail_template args fs w htr hw ht]
        simp [hw, ht]
      | some t =>
        rw [run_render_success_browser args fs w t htr hb hw ht]
        simp [hw, ht]

/-- C3 witness: with only the browser flag set the open effect does
happen. -/
theorem c3_witness :
    (⟨false, true⟩ : Args).test_browser = true ∧
    (Event.openBrowser outFile ∈ (run ⟨false, true⟩ fsEmpty).events ↔
      ((⟨false, true⟩ : Args).test_render = false ∨
       ((fsEmpty jsFile).isSome ∧ (fsEmpty templateFile).isSome))) :=
  ⟨rfl, c3_browser_open_iff_render_ok ⟨false, true⟩ fsEmpty rfl⟩

/-- C4: with both flags set and both inputs readable, the trace of the
run is exactly the two reads, then the completed write to test.html,
then the browser-open, in that order: the render step finishes before
the browser step begins and nothing interleaves them. -/
theorem c4_write_completes_before_browser (args : Args) (fs : FS) (w t : String)
    (htr : args.test_render = true) (hb : args.test_browser = true)
    (hw : fs jsFile = some w) (ht : fs templateFile = some t) :
    (run args fs).events =
      [Event.readFile jsFile, Event.readFile templateFile,
       Event.writeFile outFile (pyReplace t w), Event.openBrowser outFile] := by
  rw [run_render_success_browser args fs w t htr hb hw ht]

/-- C4 witness: the concrete both-flag run on the example filesystem
produces the read-read-write-open trace. -/
theorem c4_witness :
    ((⟨true, true⟩ : Args).test_render = true ∧
     (⟨true, true⟩ : Args).test_browser = true ∧
     fsExample jsFile = some fragExample ∧
     fsExample templateFile = some tmplExample) ∧
    (run ⟨true, true⟩ fsExample).events =
      [Event.readFile jsFile, Event.readFile templateFile,
       Event.writeFile outFile (pyReplace tmplExample fragExample),
       Event.openBrowser outFile] :=
  ⟨⟨rfl, rfl, by decide, by decide⟩,
   c4_write_completes_before_browser ⟨true, true⟩ fsExample fragExample tmplExample
     rfl rfl (by decide) (by decide)⟩

/-- C5: with neither flag set the run performs no effect at all: empty
trace, unchanged filesystem, exit status zero. -/
theorem c5_no_flags_no_effects (args : Args) (fs : FS)
    (htr : args.test_render = false) (hb : args.test_browser = false) :
    (run args fs).events = [] ∧ (run args fs).fs = fs ∧
    exitCode (run args fs) = 0 := by
  rw [run_neither args fs htr hb]
  exact ⟨rfl, rfl, rfl⟩

/-- C5 witness: the concrete flagless run on the example filesystem. -/
theorem c5_witness :
    ((⟨false, false⟩ : Args).test_render = false ∧
     (⟨false, false⟩ : Args).test_browser = false) ∧
    (run ⟨false, false⟩ fsExample).events = [] ∧
    (run ⟨false, false⟩ fsExample).fs = fsExample ∧
    exitCode (run ⟨false, false⟩ fsExample) = 0 :=
  ⟨⟨rfl, rfl⟩, c5_no_flags_no_effects ⟨false, false⟩ fsExample rfl rfl⟩

/-- C6: a template with zero placeholder occurrences renders
successfully and the output written to test.html is byte-identical to
the template, for any fragment. -/
theorem c6_no_placeholder_renders_template (args : Args) (fs : FS) (w t : String)
    (htr : args.test_render = true) (hw : fs jsFile = some w)
    (ht : fs templateFile = some t) (hno : containsPH t.data = false) :
    exitCode (run args fs) = 0 ∧ (run args fs).fs outFile = some t := by
  have hrepl : pyReplace t w = t := by
    show String.mk (replaceLC w.data t.data) = t
    rw [replaceLC_of_not_containsPH w.data t.data hno]
  refine ⟨?_, ?_⟩
  · cases hb : args.test_browser
    · rw [run_render_success args fs w t htr hb hw ht]
      rfl
    · rw [run_render_success_browser args fs w t htr hb hw ht]
      rfl
  · rw [run_fs_outFile args fs w t htr hw ht, hrepl]

/-- C6 witness: concrete run on a placeholder-free template. -/
theorem c6_witness :
    ((⟨true, false⟩ : Args).test_render = true ∧
     fsPlain jsFile = some fragExample ∧
     fsPlain templateFile = some plainExample ∧
     containsPH plainExample.data = false) ∧
    exitCode (run ⟨true, false⟩ fsPlain) = 0 ∧
    (run ⟨true, false⟩ fsPlain).fs outFile = some plainExample :=
  ⟨⟨rfl, by decide, by decide, by decide⟩,
   c6_no_placeholder_renders_template ⟨true, false⟩ fsPlain fragExample plainExample
     rfl (by decide) (by decide) (by decide)⟩

/-- C7: two renders against the same input contents write byte-identical
test.html content, whatever test.html held before each run. -/
theorem c7_rerender_byte_identical (args : Args) (fs1 fs2 : FS) (w t : String)
    (htr : args.test_render = true)
    (h1w : fs1 jsFile = some w) (h1t : fs1 templateFile = some t)
    (h2w : fs2 jsFile = some w) (h2t : fs2 templateFile = some t) :
    (run args fs1).fs outFile = (run args fs2).fs outFile ∧
    (run args fs1).fs outFile = some (pyReplace t w) := by
  have e1 := run_fs_outFile args fs1 w t htr h1w h1t
  have e2 := run_fs_outFile args fs2 w t htr h2w h2t
  exact ⟨e1.trans e2.symm, e1⟩

/-- C7 witness: the same inputs rendered over two filesystems that
differ in the prior content of test.html. -/
theorem c7_witness :
    ((⟨true, false⟩ : Args).test_render = true ∧
     fsExample jsFile = some fragExample ∧
     fsExample templateFile = some tmplExample ∧
     fsStale jsFile = some fragExample ∧
     fsStale templateFile = some tmplExample ∧
     fsExample outFile = none ∧ fsStale outFile = some staleExample) ∧
    (run ⟨true, false⟩ fsExample).fs outFile = (run ⟨true, false⟩ fsStale).fs outFile ∧
    (run ⟨true, false⟩ fsExample).fs outFile = some (pyReplace tmplExample fragExample) :=
  ⟨⟨rfl, by decide, by decide, by decide, by decide, by decide, by decide⟩,
   c7_rerender_byte_identical ⟨true, false⟩ fsExample fsStale fragExample tmplExample
     rfl (by decide) (by decide) (by decide) (by decide)⟩

/-- C8: an invocation with only the browser flag set changes no file:
the filesystem is returned unchanged and the trace holds exactly the
browser-open effect, no read and no write. -/
theorem c8_browser_only_leaves_files (args : Args) (fs : FS)
    (htr : args.test_render = false) (hb : args.test_browser = true) :
    (run args fs).fs = fs ∧
    (run args fs).events = [Event.openBrowser outFile] ∧
    exitCode (run args fs) = 0 := by
  rw [run_browser_only args fs htr hb]
  exact ⟨rfl, rfl, rfl⟩

/-- C8 witness: concrete browser-only run over a filesystem with a
pre-existing output file. -/
theorem c8_witness :
    ((⟨false, true⟩ : Args).test_render = false ∧
     (⟨false, true⟩ : Args).test_browser = true) ∧
    (run ⟨false, true⟩ fsStale).fs = fsStale ∧
    (run ⟨false, true⟩ fsStale).events = [Event.openBrowser outFile] ∧
    exitCode (run ⟨false, true⟩ fsStale) = 0 :=
  ⟨⟨rfl, rfl⟩, c8_browser_only_leaves_files ⟨false, true⟩ fsStale rfl rfl⟩

/-- C9: determinism of the write effects - two invocations with the
same flags and the same contents of the two input files perform
identical file writes, whatever the prior content or existence of
test.html or of any other file. -/
theorem c9_same_inputs_same_writes (args : Args) (fs1 fs2 : FS)
    (hjs : fs1 jsFile = fs2 jsFile) (htm : fs1 templateFile = fs2 templateFile) :
    writesOf (run args fs1) = writesOf (run args fs2) := by
  cases htr : args.test_render
  · cases hb : args.test_browser
    · rw [run_neither args fs1 htr hb, run_neither args fs2 htr hb]
      rfl
    · rw [run_browser_only args fs1 htr hb, run_browser_only args fs2 htr hb]
      rfl
  · cases hw : fs1 jsFile with
    | none =>
      rw [run_fail_js args fs1 htr hw, run_fail_js args fs2 htr (hjs.symm.trans hw)]
      rfl
    | some w =>
      cases ht : fs1 templateFile with
      | none =>
        rw [run_fail_template args fs1 w htr hw ht,
          run_fail_template args fs2 w htr (hjs.symm.trans hw) (htm.symm.trans ht)]
        rfl
      | some t =>
        cases hb : args.test_browser
        · rw [run_render_success args fs1 w t htr hb hw ht,
            run_render_success args fs2 w t htr hb (hjs.symm.trans hw) (htm.symm.trans ht)]
          rfl
        · rw [run_render_success_browser args fs1 w t htr hb hw ht,
            run_render_success_browser args fs2 w t htr hb (hjs.symm.trans hw)
              (htm.symm.trans ht)]
          rfl

/-- C9 witness: identical writes over two filesystems differing in the
prior output file. -/
theorem c9_witness :
    (fsExample jsFile = fsStale jsFile ∧
     fsExample templateFile = fsStale templateFile ∧
     fsExample outFile ≠ fsStale outFile) ∧
    writesOf (run ⟨true, true⟩ fsExample) = writesOf (run ⟨true, true⟩ fsStale) :=
  ⟨⟨by decide, by decide, by decide⟩,
   c9_same_inputs_same_writes ⟨true, true⟩ fsExample fsStale (by decide) (by decide)⟩
